import Mathlib

/-!
Shallow embedding of the Roblox AI proxy server's `/generate` request handler
(BYOK variant: no server-held fallback keys), together with a small heap model
for the Gemini/Claude payload translations, used to verify the specification's
claims about routing, validation, payload translation and response
normalization.

JavaScript conventions modelled here:
  * an absent (`undefined`) field of type string is `Option.none`;
  * a falsy string check (`if (!x)`) is true for `none` and for `some ""`;
  * interpolating `undefined` into a template literal yields the text
    "undefined";
  * `fetch`'s `Response.ok` is true exactly for statuses 200..299.
-/

/-- A message object from the request body: `{ role, content }`, either field
possibly absent. -/
structure ReqMsg where
  role : Option String
  content : Option String
deriving DecidableEq, Repr

/-- The JSON body of a `POST /generate` request, fields possibly absent. -/
structure GenRequest where
  context : Option String
  model : Option String
  apiKey : Option String
  messages : Option (List ReqMsg)
deriving DecidableEq, Repr

/-- `const DEFAULT_MODEL = "gpt-4o-mini"`. -/
def DEFAULT_MODEL : String := "gpt-4o-mini"

/-- JS falsy test on an optional string: `!x` is true for `undefined` and `""`. -/
def strFalsy : Option String → Bool
  | none => true
  | some s => s == ""

/-- `!messages || messages.length === 0`. -/
def messagesMissing : Option (List ReqMsg) → Bool
  | none => true
  | some l => l.isEmpty

/-- JS `x || d` on an optional string: `undefined` and `""` fall back to `d`. -/
def jsOrString (v : Option String) (d : String) : String :=
  match v with
  | none => d
  | some s => if s == "" then d else s

/-- Rendering a possibly-`undefined` string into a template literal:
`undefined` prints as the text "undefined". -/
def jsToString : Option String → String
  | none => "undefined"
  | some s => s

/-- The literal placeholder used when `context` is absent or empty. -/
def NO_CONTEXT_TEXT : String := "No context provided."

/-- The fixed part of the system-prompt template (everything before the
interpolated `context`), verbatim from the handler. -/
def promptHeader : String :=
  "You are an expert Roblox Luau developer and scripter.\n" ++
  "Your task is to help a user in Roblox Studio.\n" ++
  "You will be given a conversation history and a JSON string representing the user\x27s \"context\" (parts, scripts, etc.).\n" ++
  "Based on the prompt and context, provide helpful advice or complete Luau code snippets.\n" ++
  "If you write code, wrap it in Luau markdown blocks (\x27\x27\x27luau ... \x27\x27\x27).\n" ++
  "\n" ++
  "The user\x27s selected workspace context is:\n"

/-- The `systemPrompt` template literal: fixed header followed by
`context || "No context provided."`. -/
def systemPromptOf (context : Option String) : String :=
  promptHeader ++ jsOrString context NO_CONTEXT_TEXT

/-- The three upstream providers. -/
inductive Provider where
  | openai
  | gemini
  | anthropic
deriving DecidableEq, Repr

/-- JS `s.startsWith(p)`: case-sensitive test that `p`'s characters are a
prefix of `s`'s characters. -/
def strStartsWith (s p : String) : Bool :=
  p.data.isPrefixOf s.data

/-- The router's if/else chain over `model`: case-sensitive `startsWith`
tests in source order, first match winning. -/
def selectProvider (model : String) : Option Provider :=
  if strStartsWith model "gpt-" then some Provider.openai
  else if strStartsWith model "gemini-" then some Provider.gemini
  else if strStartsWith model "claude-" then some Provider.anthropic
  else none

/-- An OpenAI wire message; the spread `...messages` forwards request
messages as-is, so the fields stay optional. -/
structure OpenAIWireMsg where
  role : Option String
  content : Option String
deriving DecidableEq, Repr

/-- The OpenAI request payload `{ model, messages, temperature: 1 }`. -/
structure OpenAIPayload where
  model : String
  messages : List OpenAIWireMsg
  temperature : Nat
deriving DecidableEq, Repr

/-- A Gemini wire part `{ text }`; `text` is `undefined` when the source
message had no `content`. -/
structure GeminiPartW where
  text : Option String
deriving DecidableEq, Repr

/-- A Gemini wire content entry `{ role, parts }`. -/
structure GeminiContentW where
  role : String
  parts : List GeminiPartW
deriving DecidableEq, Repr

/-- The Gemini request payload `{ contents }`. -/
structure GeminiPayload where
  contents : List GeminiContentW
deriving DecidableEq, Repr

/-- A Claude wire message `{ role, content }` with role normalized. -/
structure ClaudeWireMsg where
  role : String
  content : Option String
deriving DecidableEq, Repr

/-- The Claude request payload `{ model, system, messages, max_tokens: 2048 }`. -/
structure ClaudePayload where
  model : String
  system : String
  messages : List ClaudeWireMsg
  maxTokens : Nat
deriving DecidableEq, Repr

/-- `msg.role === 'assistant' ? 'model' : 'user'`. -/
def mapGeminiRole (r : Option String) : String :=
  if r == some "assistant" then "model" else "user"

/-- `msg.role === 'assistant' ? 'assistant' : 'user'`. -/
def mapClaudeRole (r : Option String) : String :=
  if r == some "assistant" then "assistant" else "user"

/-- The fixed delimiter placed between the system prompt and the first
message's text in the Gemini translation. -/
def USER_PROMPT_DELIM : String := "\n\n---\n\nUSER PROMPT: "

/-- `messages.map(msg => ({ role: ..., parts: [{ text: msg.content }] }))`. -/
def geminiBase (msgs : List ReqMsg) : List GeminiContentW :=
  msgs.map fun m => ⟨mapGeminiRole m.role, [⟨m.content⟩]⟩

/-- `geminiContents[0].parts[0].text = ...`: rewrite the first part of the
first content entry, prepending the system prompt and delimiter to the JS
string rendering of the old text.  The `[]` cases never arise in the
handler: the contents list is nonempty because `messages` was validated
nonempty, and every `parts` list is a freshly built singleton. -/
def injectSystemPrompt (sp : String) : List GeminiContentW → List GeminiContentW
  | [] => []
  | c :: rest =>
    match c.parts with
    | [] => c :: rest
    | p :: ps =>
      ⟨c.role, ⟨some (sp ++ USER_PROMPT_DELIM ++ jsToString p.text)⟩ :: ps⟩ :: rest

/-- The full Gemini payload translation: per-message mapping followed by the
in-place system-prompt injection into element 0. -/
def geminiContentsOf (sp : String) (msgs : List ReqMsg) : List GeminiContentW :=
  injectSystemPrompt sp (geminiBase msgs)

/-- `messages.map(msg => ({ role: msg.role === 'assistant' ? 'assistant' : 'user', content: msg.content }))`. -/
def claudeMessagesOf (msgs : List ReqMsg) : List ClaudeWireMsg :=
  msgs.map fun m => ⟨mapClaudeRole m.role, m.content⟩

/-- An OpenAI success body: `{ choices?: [{ message?: { content? } }] }`. -/
structure OpenAIMsgR where
  content : Option String
deriving DecidableEq, Repr

structure OpenAIChoice where
  message : Option OpenAIMsgR
deriving DecidableEq, Repr

structure OpenAIResult where
  choices : Option (List OpenAIChoice)
deriving DecidableEq, Repr

/-- `result.choices?.[0]?.message?.content`. -/
def openaiExtract (r : OpenAIResult) : Option String :=
  match r.choices with
  | none => none
  | some [] => none
  | some (c :: _) =>
    match c.message with
    | none => none
    | some m => m.content

/-- A Gemini success body: `{ candidates?: [{ content?: { parts?: [{ text? }] } }] }`. -/
structure GeminiPartR where
  text : Option String
deriving DecidableEq, Repr

structure GeminiContentR where
  parts : Option (List GeminiPartR)
deriving DecidableEq, Repr

structure GeminiCandidate where
  content : Option GeminiContentR
deriving DecidableEq, Repr

structure GeminiResult where
  candidates : Option (List GeminiCandidate)
deriving DecidableEq, Repr

/-- `result.candidates?.[0]?.content.parts?.[0]?.text`.  Note the plain
(non-optional) `.content.parts` access: a present first candidate with an
absent `content` throws a TypeError, modelled as `Except.error` with the
runtime's message; every other absence short-circuits to `undefined`. -/
def geminiExtract (r : GeminiResult) : Except String (Option String) :=
  match r.candidates with
  | none => Except.ok none
  | some [] => Except.ok none
  | some (c :: _) =>
    match c.content with
    | none => Except.error "Cannot read properties of undefined (reading \x27parts\x27)"
    | some cnt =>
      match cnt.parts with
      | none => Except.ok none
      | some [] => Except.ok none
      | some (p :: _) => Except.ok p.text

/-- A Claude success body: `{ content?: [{ text? }] }`. -/
structure ClaudeBlock where
  text : Option String
deriving DecidableEq, Repr

structure ClaudeResult where
  content : Option (List ClaudeBlock)
deriving DecidableEq, Repr

/-- `result.content?.[0]?.text`. -/
def claudeExtract (r : ClaudeResult) : Option String :=
  match r.content with
  | none => none
  | some [] => none
  | some (b :: _) => b.text

/-- What the (single) upstream provider call would return: the HTTP status,
the error body delivered by `.text()` when the status is not ok, and the
parsed success body for whichever provider is contacted. -/
structure ProviderResponse where
  status : Nat
  errorBody : String
  openaiResult : OpenAIResult
  geminiResult : GeminiResult
  claudeResult : ClaudeResult
deriving DecidableEq, Repr

/-- `Response.ok`: status in 200..299. -/
def respOk (status : Nat) : Bool :=
  Nat.ble 200 status && Nat.blt status 300

/-- A record of one outbound `fetch` to a provider. -/
inductive OutboundCall where
  | openai (payload : OpenAIPayload)
  | gemini (model : String) (key : String) (payload : GeminiPayload)
  | claude (payload : ClaudePayload)
deriving DecidableEq, Repr

/-- The JSON body of the handler's response; absent fields are `none`. -/
structure ResponseBody where
  text : Option String := none
  error : Option String := none
  details : Option String := none
deriving DecidableEq, Repr

/-- The observable outcome of one `/generate` invocation: HTTP status,
response body, and the list of outbound provider calls made (zero or one). -/
structure HandlerResult where
  status : Nat
  body : ResponseBody
  calls : List OutboundCall
deriving DecidableEq, Repr

/-- The tail of the handler: the caught TypeError becomes a 500 internal
error; a falsy `aiText` (absent or empty) becomes a 500 parse error;
otherwise 200 `{ text }`. -/
def finishResponse (aiText : Except String (Option String))
    (calls : List OutboundCall) : HandlerResult :=
  match aiText with
  | Except.error e =>
    ⟨500, { error := some "Internal server error.", details := some e }, calls⟩
  | Except.ok t =>
    match t with
    | none =>
      ⟨500, { error := some "Could not parse AI response from provider." }, calls⟩
    | some s =>
      if s == "" then
        ⟨500, { error := some "Could not parse AI response from provider." }, calls⟩
      else ⟨200, { text := some s }, calls⟩

/-- The `/generate` handler of the BYOK proxy server, as a function of the
request body and of what the upstream provider would answer.  Follows the
source order exactly: `messages` validation, then the `apiKey` check, then
the model router, one `fetch`, and response normalization. -/
def generate (req : GenRequest) (up : ProviderResponse) : HandlerResult :=
  let model := req.model.getD DEFAULT_MODEL
  if messagesMissing req.messages then
    ⟨400, { error := some "Missing \x27messages\x27 array in request body." }, []⟩
  else if strFalsy req.apiKey then
    ⟨400, { error := some "API Key Required",
            details := some "You must provide your own API key in the plugin\x27s configuration section to use this tool." }, []⟩
  else
    let keyToUse := req.apiKey.getD ""
    let messages := (req.messages).getD []
    let systemPrompt := systemPromptOf req.context
    if strStartsWith model "gpt-" then
      let payload : OpenAIPayload :=
        ⟨model, ⟨some "system", some systemPrompt⟩ ::
                messages.map (fun m => ⟨m.role, m.content⟩), 1⟩
      let call := OutboundCall.openai payload
      if respOk up.status then
        finishResponse (Except.ok (openaiExtract up.openaiResult)) [call]
      else
        ⟨up.status, { error := some "Error from OpenAI API.",
                      details := some up.errorBody }, [call]⟩
    else if strStartsWith model "gemini-" then
      let contents := geminiContentsOf systemPrompt messages
      let call := OutboundCall.gemini model keyToUse ⟨contents⟩
      if respOk up.status then
        finishResponse (geminiExtract up.geminiResult) [call]
      else
        ⟨up.status, { error := some "Error from Google API.",
                      details := some up.errorBody }, [call]⟩
    else if strStartsWith model "claude-" then
      let payload : ClaudePayload :=
        ⟨model, systemPrompt, claudeMessagesOf messages, 2048⟩
      let call := OutboundCall.claude payload
      if respOk up.status then
        finishResponse (Except.ok (claudeExtract up.claudeResult)) [call]
      else
        ⟨up.status, { error := some "Error from Anthropic API.",
                      details := some up.errorBody }, [call]⟩
    else
      ⟨400, { error := some ("Unsupported model: " ++ model) }, []⟩

/-- The provider-specific success-text extraction, as a function of the
routed provider. -/
def extractedOf : Provider → ProviderResponse → Except String (Option String)
  | Provider.openai, up => Except.ok (openaiExtract up.openaiResult)
  | Provider.gemini, up => geminiExtract up.geminiResult
  | Provider.anthropic, up => Except.ok (claudeExtract up.claudeResult)

/-- The `error` string of the non-ok branch for each provider. -/
def providerErrorMsg : Provider → String
  | Provider.openai => "Error from OpenAI API."
  | Provider.gemini => "Error from Google API."
  | Provider.anthropic => "Error from Anthropic API."

/-!
Heap model of the two translations that build fresh objects from the
caller-supplied `messages` array.  JavaScript objects are mutable cells; the
Gemini translation performs one field assignment
(`geminiContents[0].parts[0].text = ...`).  To show the caller's message
objects are never touched, we give the translations an explicit heap: a list
of objects addressed by index, where `map` allocates fresh cells at the end
of the heap and the assignment is a `List.set` at a part cell's address.
Strings are JS primitives (immutable), so only objects live in the heap.
-/

/-- A heap object: a request message `{ role, content }` or a Gemini part
`{ text }`. -/
inductive HObj where
  | msgObj (role : Option String) (content : Option String)
  | partObj (text : Option String)
deriving DecidableEq, Repr

/-- The heap: object cells addressed by list index; allocation appends. -/
abbrev Heap := List HObj

/-- Read `msg.role` and `msg.content` from the object at address `a`
(`undefined` fields when the cell is missing or not a message object). -/
def readMsgFields (h : Heap) (a : Nat) : Option String × Option String :=
  match h[a]? with
  | some (HObj.msgObj r c) => (r, c)
  | _ => (none, none)

/-- Read `part.text` from the object at address `a`. -/
def readPartText (h : Heap) (a : Nat) : Option String :=
  match h[a]? with
  | some (HObj.partObj t) => t
  | _ => none

/-- The Gemini `messages.map(...)` over message addresses: reads each
message's fields and allocates a fresh part cell holding its content,
returning the new heap and the contents array as (role, part-address)
pairs. -/
def geminiMapH (h : Heap) : List Nat → Heap × List (String × Nat)
  | [] => (h, [])
  | a :: rest =>
    let rc := readMsgFields h a
    let partAddr := h.length
    let h1 := h ++ [HObj.partObj rc.2]
    let out := geminiMapH h1 rest
    (out.1, (mapGeminiRole rc.1, partAddr) :: out.2)

/-- `geminiContents[0].parts[0].text = ...` in the heap model: one field
write at the first content entry's part address. -/
def geminiInjectH (sp : String) (st : Heap × List (String × Nat)) :
    Heap × List (String × Nat) :=
  match st.2 with
  | [] => st
  | (_, a) :: _ =>
    let old := readPartText st.1 a
    (st.1.set a (HObj.partObj (some (sp ++ USER_PROMPT_DELIM ++ jsToString old))),
     st.2)

/-- The full Gemini translation in the heap model: map, then the in-place
system-prompt injection. -/
def geminiTranslateH (sp : String) (h : Heap) (addrs : List Nat) :
    Heap × List (String × Nat) :=
  geminiInjectH sp (geminiMapH h addrs)

/-- The Claude `messages.map(...)` over message addresses: reads each
message's fields and allocates a fresh message cell with the normalized
role; no cell is ever written after allocation. -/
def claudeMapH (h : Heap) : List Nat → Heap × List Nat
  | [] => (h, [])
  | a :: rest =>
    let rc := readMsgFields h a
    let newAddr := h.length
    let h1 := h ++ [HObj.msgObj (some (mapClaudeRole rc.1)) rc.2]
    let out := claudeMapH h1 rest
    (out.1, newAddr :: out.2)

/-- The observable value of a Gemini contents array: each entry's role
together with the text stored at its part address. -/
def renderGemini (h : Heap) (c : List (String × Nat)) :
    List (String × Option String) :=
  c.map fun rc => (rc.1, readPartText h rc.2)

/-- The value the Gemini translation produces, as a pure function of the
(role, content) fields read from the message addresses. -/
def pureGeminiRender (sp : String) :
    List (Option String × Option String) → List (String × Option String)
  | [] => []
  | rc :: rest =>
    (mapGeminiRole rc.1, some (sp ++ USER_PROMPT_DELIM ++ jsToString rc.2)) ::
      rest.map fun x => (mapGeminiRole x.1, x.2)

/-- A provider response with empty success bodies, used to instantiate
theorems at concrete inputs. -/
def upZero : ProviderResponse := ⟨200, "", ⟨none⟩, ⟨none⟩, ⟨none⟩⟩

/-- C4: a request whose `messages` field is absent or an empty sequence is
answered 400 with an error field, and no outbound provider call is made. -/
theorem c4_missing_messages_rejected (req : GenRequest) (up : ProviderResponse)
    (h : req.messages = none ∨ req.messages = some []) :
    (generate req up).status = 400 ∧
    (generate req up).body.error =
      some "Missing \x27messages\x27 array in request body." ∧
    (generate req up).calls = [] := by
  rcases h with h | h <;> simp [generate, messagesMissing, h]

/-- Witness for C4 at a concrete request with absent `messages`. -/
theorem c4_missing_messages_rejected_witness :
    (generate ⟨none, some "gpt-4o", some "k", none⟩ upZero).status = 400 ∧
    (generate ⟨none, some "gpt-4o", some "k", none⟩ upZero).body.error =
      some "Missing \x27messages\x27 array in request body." ∧
    (generate ⟨none, some "gpt-4o", some "k", none⟩ upZero).calls = [] :=
  c4_missing_messages_rejected ⟨none, some "gpt-4o", some "k", none⟩ upZero
    (Or.inl rfl)

/-- C5: the system prompt is the fixed template header followed by exactly
one variable component: the caller's `context` string verbatim when present
and nonempty, and the literal placeholder "No context provided." when
`context` is absent or empty. -/
theorem c5_system_prompt_template (ctx : Option String) :
    ∃ v, systemPromptOf ctx = promptHeader ++ v ∧
      ((ctx = some v ∧ v ≠ "") ∨
       ((ctx = none ∨ ctx = some "") ∧ v = NO_CONTEXT_TEXT)) := by
  cases ctx with
  | none => exact ⟨NO_CONTEXT_TEXT, rfl, Or.inr ⟨Or.inl rfl, rfl⟩⟩
  | some s =>
    by_cases hs : s = ""
    · subst hs
      exact ⟨NO_CONTEXT_TEXT, rfl, Or.inr ⟨Or.inr rfl, rfl⟩⟩
    · refine ⟨s, ?_, Or.inl ⟨rfl, hs⟩⟩
      simp [systemPromptOf, jsOrString, hs]

/-- C3 (amended): a request with non-empty `messages` and absent `apiKey` is
answered 400 "API Key Required" with no outbound call, regardless of the
model. -/
theorem c3_absent_api_key_rejected (req : GenRequest) (up : ProviderResponse)
    (m : ReqMsg) (ms : List ReqMsg)
    (hmsgs : req.messages = some (m :: ms)) (hkey : req.apiKey = none) :
    (generate req up).status = 400 ∧
    (generate req up).body.error = some "API Key Required" ∧
    (generate req up).calls = [] := by
  simp [generate, messagesMissing, strFalsy, hmsgs, hkey]

/-- Witness for C3 at a concrete `gpt-` request with absent `apiKey`. -/
theorem c3_absent_api_key_rejected_witness :
    (generate ⟨none, some "gpt-4o", none, some [⟨some "user", some "hi"⟩]⟩
        upZero).status = 400 ∧
    (generate ⟨none, some "gpt-4o", none, some [⟨some "user", some "hi"⟩]⟩
        upZero).body.error = some "API Key Required" ∧
    (generate ⟨none, some "gpt-4o", none, some [⟨some "user", some "hi"⟩]⟩
        upZero).calls = [] :=
  c3_absent_api_key_rejected
    ⟨none, some "gpt-4o", none, some [⟨some "user", some "hi"⟩]⟩ upZero
    ⟨some "user", some "hi"⟩ [] rfl rfl

/-- Counterexample to C3 as stated: a request with absent `apiKey` whose
`messages` field is also absent is rejected with the missing-messages error,
not "API Key Required". -/
theorem c3_counterexample :
    (generate ⟨none, some "gpt-4o", none, none⟩ upZero).body.error =
      some "Missing \x27messages\x27 array in request body." ∧
    (generate ⟨none, some "gpt-4o", none, none⟩ upZero).body.error ≠
      some "API Key Required" :=
  ⟨rfl, by decide⟩

/-- C10 (amended): an `apiKey` equal to the empty string is treated exactly
like an absent one — the handler's result is identical — and when `messages`
is non-empty such a request gets the 400 "API Key Required" rejection with
no outbound call. -/
theorem c10_empty_api_key_like_absent (req : GenRequest)
    (up : ProviderResponse) (hkey : req.apiKey = some "") :
    generate req up = generate { req with apiKey := none } up ∧
    ∀ m ms, req.messages = some (m :: ms) →
      (generate req up).status = 400 ∧
      (generate req up).body.error = some "API Key Required" ∧
      (generate req up).calls = [] := by
  constructor
  · cases hm : messagesMissing req.messages <;>
      simp [generate, hkey, strFalsy, hm]
  · intro m ms hmsgs
    simp [generate, messagesMissing, strFalsy, hmsgs, hkey]

/-- Witness for C10 at a concrete `claude-` request with empty `apiKey`. -/
theorem c10_empty_api_key_like_absent_witness :
    generate ⟨none, some "claude-3", some "", some [⟨some "user", some "hi"⟩]⟩
        upZero =
      generate ⟨none, some "claude-3", none, some [⟨some "user", some "hi"⟩]⟩
        upZero ∧
    (generate ⟨none, some "claude-3", some "", some [⟨some "user", some "hi"⟩]⟩
        upZero).status = 400 ∧
    (generate ⟨none, some "claude-3", some "", some [⟨some "user", some "hi"⟩]⟩
        upZero).body.error = some "API Key Required" ∧
    (generate ⟨none, some "claude-3", some "", some [⟨some "user", some "hi"⟩]⟩
        upZero).calls = [] :=
  ⟨(c10_empty_api_key_like_absent
      ⟨none, some "claude-3", some "", some [⟨some "user", some "hi"⟩]⟩
      upZero rfl).1,
   (c10_empty_api_key_like_absent
      ⟨none, some "claude-3", some "", some [⟨some "user", some "hi"⟩]⟩
      upZero rfl).2 ⟨some "user", some "hi"⟩ [] rfl⟩

/-- Counterexample to C10 as stated: with an empty `apiKey` and empty
`messages` the handler answers with the missing-messages error, not
"API Key Required" (the behaviour still matches absent `apiKey`, but the
asserted response body does not hold for every such request). -/
theorem c10_counterexample :
    (generate ⟨none, some "claude-3", some "", some []⟩ upZero).body.error =
      some "Missing \x27messages\x27 array in request body." ∧
    (generate ⟨none, some "claude-3", some "", some []⟩ upZero).body.error ≠
      some "API Key Required" :=
  ⟨rfl, by decide⟩

/-- C1 (amended): the router maps a model name to a provider by
case-sensitive prefix match in source order with the first match winning
(`gpt-` to OpenAI, then `gemini-` to Google, then `claude-` to Anthropic),
and a request passing the messages/apiKey validations whose effective model
matches no prefix is answered 400 naming the unsupported model, with zero
outbound calls. -/
theorem c1_provider_routing :
    (∀ m : String,
      (strStartsWith m "gpt-" = true → selectProvider m = some Provider.openai) ∧
      (strStartsWith m "gpt-" = false → strStartsWith m "gemini-" = true →
        selectProvider m = some Provider.gemini) ∧
      (strStartsWith m "gpt-" = false → strStartsWith m "gemini-" = false →
        strStartsWith m "claude-" = true →
        selectProvider m = some Provider.anthropic) ∧
      (strStartsWith m "gpt-" = false → strStartsWith m "gemini-" = false →
        strStartsWith m "claude-" = false → selectProvider m = none)) ∧
    ∀ (req : GenRequest) (up : ProviderResponse),
      messagesMissing req.messages = false →
      strFalsy req.apiKey = false →
      selectProvider (req.model.getD DEFAULT_MODEL) = none →
      (generate req up).status = 400 ∧
      (generate req up).body.error =
        some ("Unsupported model: " ++ req.model.getD DEFAULT_MODEL) ∧
      (generate req up).calls = [] := by
  constructor
  · intro m
    constructor
    · intro h1
      simp [selectProvider, h1]
    constructor
    · intro h1 h2
      simp [selectProvider, h1, h2]
    constructor
    · intro h1 h2 h3
      simp [selectProvider, h1, h2, h3]
    · intro h1 h2 h3
      simp [selectProvider, h1, h2, h3]
  · intro req up hm hk hsel
    have h1 : strStartsWith (req.model.getD DEFAULT_MODEL) "gpt-" = false := by
      cases hx : strStartsWith (req.model.getD DEFAULT_MODEL) "gpt-"
      · rfl
      · simp [selectProvider, hx] at hsel
    have h2 : strStartsWith (req.model.getD DEFAULT_MODEL) "gemini-" = false := by
      cases hx : strStartsWith (req.model.getD DEFAULT_MODEL) "gemini-"
      · rfl
      · simp [selectProvider, h1, hx] at hsel
    have h3 : strStartsWith (req.model.getD DEFAULT_MODEL) "claude-" = false := by
      cases hx : strStartsWith (req.model.getD DEFAULT_MODEL) "claude-"
      · rfl
      · simp [selectProvider, h1, h2, hx] at hsel
    simp [generate, hm, hk, h1, h2, h3]

/-- Witness for C1: the selector routes a `gpt-` model to OpenAI, and a
concrete validated request with model "llama-3" is rejected 400 naming the
model, with zero calls. -/
theorem c1_provider_routing_witness :
    selectProvider "gpt-4o" = some Provider.openai ∧
    ((generate ⟨none, some "llama-3", some "k", some [⟨some "user", some "hi"⟩]⟩
        upZero).status = 400 ∧
     (generate ⟨none, some "llama-3", some "k", some [⟨some "user", some "hi"⟩]⟩
        upZero).body.error = some ("Unsupported model: " ++ "llama-3") ∧
     (generate ⟨none, some "llama-3", some "k", some [⟨some "user", some "hi"⟩]⟩
        upZero).calls = []) :=
  ⟨(c1_provider_routing.1 "gpt-4o").1 (by decide),
   c1_provider_routing.2
     ⟨none, some "llama-3", some "k", some [⟨some "user", some "hi"⟩]⟩ upZero
     (by decide) (by decide) (by decide)⟩

/-- Counterexample to C1 as stated: a request whose model matches no prefix
but whose `messages` field is absent is answered 400 with the
missing-messages error, which does not name the unsupported model. -/
theorem c1_counterexample :
    (generate ⟨none, some "llama-3", none, none⟩ upZero).status = 400 ∧
    (generate ⟨none, some "llama-3", none, none⟩ upZero).body.error =
      some "Missing \x27messages\x27 array in request body." ∧
    (generate ⟨none, some "llama-3", none, none⟩ upZero).body.error ≠
      some ("Unsupported model: " ++ "llama-3") :=
  ⟨rfl, rfl, by decide⟩

/-- Unfolding lemma: a validated, routed request whose upstream answers with
an ok (2xx) status is normalized by `finishResponse` applied to the routed
provider's extraction. -/
theorem generate_routed_ok (req : GenRequest) (up : ProviderResponse)
    (p : Provider)
    (hm : messagesMissing req.messages = false)
    (hk : strFalsy req.apiKey = false)
    (hp : selectProvider (req.model.getD DEFAULT_MODEL) = some p)
    (hok : respOk up.status = true) :
    ∃ call, generate req up = finishResponse (extractedOf p up) [call] := by
  by_cases h1 : strStartsWith (req.model.getD DEFAULT_MODEL) "gpt-" = true
  · have hpe : p = Provider.openai := by
      simp [selectProvider, h1] at hp
      exact hp.symm
    subst hpe
    exact ⟨OutboundCall.openai
      ⟨req.model.getD DEFAULT_MODEL,
       ⟨some "system", some (systemPromptOf req.context)⟩ ::
         (req.messages.getD []).map (fun m => ⟨m.role, m.content⟩), 1⟩,
      by simp [generate, hm, hk, h1, hok, extractedOf]⟩
  · replace h1 : strStartsWith (req.model.getD DEFAULT_MODEL) "gpt-" = false :=
      by simpa using h1
    by_cases h2 : strStartsWith (req.model.getD DEFAULT_MODEL) "gemini-" = true
    · have hpe : p = Provider.gemini := by
        simp [selectProvider, h1, h2] at hp
        exact hp.symm
      subst hpe
      exact ⟨OutboundCall.gemini (req.model.getD DEFAULT_MODEL)
        (req.apiKey.getD "")
        ⟨geminiContentsOf (systemPromptOf req.context) (req.messages.getD [])⟩,
        by simp [generate, hm, hk, h1, h2, hok, extractedOf]⟩
    · replace h2 : strStartsWith (req.model.getD DEFAULT_MODEL) "gemini-" = false :=
        by simpa using h2
      by_cases h3 : strStartsWith (req.model.getD DEFAULT_MODEL) "claude-" = true
      · have hpe : p = Provider.anthropic := by
          simp [selectProvider, h1, h2, h3] at hp
          exact hp.symm
        subst hpe
        exact ⟨OutboundCall.claude
          ⟨req.model.getD DEFAULT_MODEL, systemPromptOf req.context,
           claudeMessagesOf (req.messages.getD []), 2048⟩,
          by simp [generate, hm, hk, h1, h2, h3, hok, extractedOf]⟩
      · replace h3 : strStartsWith (req.model.getD DEFAULT_MODEL) "claude-" = false :=
          by simpa using h3
        simp [selectProvider, h1, h2, h3] at hp

/-- Unfolding lemma: a validated, routed request whose upstream answers with
a non-ok status is answered with the upstream status, the provider-naming
error, and the raw upstream error body as details. -/
theorem generate_routed_err (req : GenRequest) (up : ProviderResponse)
    (p : Provider)
    (hm : messagesMissing req.messages = false)
    (hk : strFalsy req.apiKey = false)
    (hp : selectProvider (req.model.getD DEFAULT_MODEL) = some p)
    (hok : respOk up.status = false) :
    ∃ call, generate req up =
      ⟨up.status, { error := some (providerErrorMsg p),
                    details := some up.errorBody }, [call]⟩ := by
  by_cases h1 : strStartsWith (req.model.getD DEFAULT_MODEL) "gpt-" = true
  · have hpe : p = Provider.openai := by
      simp [selectProvider, h1] at hp
      exact hp.symm
    subst hpe
    exact ⟨OutboundCall.openai
      ⟨req.model.getD DEFAULT_MODEL,
       ⟨some "system", some (systemPromptOf req.context)⟩ ::
         (req.messages.getD []).map (fun m => ⟨m.role, m.content⟩), 1⟩,
      by simp [generate, hm, hk, h1, hok, providerErrorMsg]⟩
  · replace h1 : strStartsWith (req.model.getD DEFAULT_MODEL) "gpt-" = false :=
      by simpa using h1
    by_cases h2 : strStartsWith (req.model.getD DEFAULT_MODEL) "gemini-" = true
    · have hpe : p = Provider.gemini := by
        simp [selectProvider, h1, h2] at hp
        exact hp.symm
      subst hpe
      exact ⟨OutboundCall.gemini (req.model.getD DEFAULT_MODEL)
        (req.apiKey.getD "")
        ⟨geminiContentsOf (systemPromptOf req.context) (req.messages.getD [])⟩,
        by simp [generate, hm, hk, h1, h2, hok, providerErrorMsg]⟩
    · replace h2 : strStartsWith (req.model.getD DEFAULT_MODEL) "gemini-" = false :=
        by simpa using h2
      by_cases h3 : strStartsWith (req.model.getD DEFAULT_MODEL) "claude-" = true
      · have hpe : p = Provider.anthropic := by
          simp [selectProvider, h1, h2, h3] at hp
          exact hp.symm
        subst hpe
        exact ⟨OutboundCall.claude
          ⟨req.model.getD DEFAULT_MODEL, systemPromptOf req.context,
           claudeMessagesOf (req.messages.getD []), 2048⟩,
          by simp [generate, hm, hk, h1, h2, h3, hok, providerErrorMsg]⟩
      · replace h3 : strStartsWith (req.model.getD DEFAULT_MODEL) "claude-" = false :=
          by simpa using h3
        simp [selectProvider, h1, h2, h3] at hp

/-- An unparsable success extraction (absent or empty text) is normalized to
the 500 parse error. -/
theorem finishResponse_unparsable (e : Except String (Option String))
    (calls : List OutboundCall)
    (h : e = Except.ok none ∨ e = Except.ok (some "")) :
    finishResponse e calls =
      ⟨500, { error := some "Could not parse AI response from provider." },
       calls⟩ := by
  rcases h with h | h <;> subst h <;> rfl

/-- C6: when the upstream call succeeds (2xx) but the provider-specific
extracted text (OpenAI: first choice's message content; Gemini: first
candidate's first part's text; Claude: first content block's text) is absent
or empty, the handler answers 500 with the parse error and never 200. -/
theorem c6_unparsable_success_is_500 (req : GenRequest)
    (up : ProviderResponse) (p : Provider)
    (hm : messagesMissing req.messages = false)
    (hk : strFalsy req.apiKey = false)
    (hp : selectProvider (req.model.getD DEFAULT_MODEL) = some p)
    (hok : respOk up.status = true)
    (hext : extractedOf p up = Except.ok none ∨
            extractedOf p up = Except.ok (some "")) :
    (generate req up).status = 500 ∧
    (generate req up).body.error =
      some "Could not parse AI response from provider." ∧
    (generate req up).status ≠ 200 ∧
    (generate req up).body.text = none := by
  obtain ⟨call, hgen⟩ := generate_routed_ok req up p hm hk hp hok
  rw [hgen, finishResponse_unparsable _ _ hext]
  exact ⟨rfl, rfl, by simp, rfl⟩

/-- Witness for C6: a 200 Gemini response with no `candidates` field yields
the 500 parse error. -/
theorem c6_unparsable_success_is_500_witness :
    (generate ⟨none, some "gemini-1.5-pro", some "k",
        some [⟨some "user", some "hi"⟩]⟩ upZero).status = 500 ∧
    (generate ⟨none, some "gemini-1.5-pro", some "k",
        some [⟨some "user", some "hi"⟩]⟩ upZero).body.error =
      some "Could not parse AI response from provider." ∧
    (generate ⟨none, some "gemini-1.5-pro", some "k",
        some [⟨some "user", some "hi"⟩]⟩ upZero).status ≠ 200 ∧
    (generate ⟨none, some "gemini-1.5-pro", some "k",
        some [⟨some "user", some "hi"⟩]⟩ upZero).body.text = none :=
  c6_unparsable_success_is_500
    ⟨none, some "gemini-1.5-pro", some "k", some [⟨some "user", some "hi"⟩]⟩
    upZero Provider.gemini (by decide) (by decide) (by decide) (by decide)
    (Or.inl rfl)

/-- C7 (amended): a non-2xx upstream status is propagated verbatim, with an
error field naming the provider and a details field carrying the raw
upstream error body verbatim (no best-effort parsing of structured
bodies). -/
theorem c7_upstream_error_propagated (req : GenRequest)
    (up : ProviderResponse) (p : Provider)
    (hm : messagesMissing req.messages = false)
    (hk : strFalsy req.apiKey = false)
    (hp : selectProvider (req.model.getD DEFAULT_MODEL) = some p)
    (hok : respOk up.status = false) :
    (generate req up).status = up.status ∧
    (generate req up).body.error = some (providerErrorMsg p) ∧
    (generate req up).body.details = some up.errorBody := by
  obtain ⟨call, hgen⟩ := generate_routed_err req up p hm hk hp hok
  rw [hgen]
  exact ⟨rfl, rfl, rfl⟩

/-- The structured upstream error body of the specification's 429 example. -/
def RATE_LIMIT_BODY : String :=
  "\x7b\"error\":\x7b\"message\":\"rate limited\"\x7d\x7d"

/-- Witness for C7 at the specification's example: a 429 upstream response
is answered 429, naming OpenAI, with the raw body as details. -/
theorem c7_upstream_error_propagated_witness :
    (generate ⟨none, some "gpt-4o", some "k", some [⟨some "user", some "hi"⟩]⟩
        ⟨429, RATE_LIMIT_BODY, ⟨none⟩, ⟨none⟩, ⟨none⟩⟩).status = 429 ∧
    (generate ⟨none, some "gpt-4o", some "k", some [⟨some "user", some "hi"⟩]⟩
        ⟨429, RATE_LIMIT_BODY, ⟨none⟩, ⟨none⟩, ⟨none⟩⟩).body.error =
      some (providerErrorMsg Provider.openai) ∧
    (generate ⟨none, some "gpt-4o", some "k", some [⟨some "user", some "hi"⟩]⟩
        ⟨429, RATE_LIMIT_BODY, ⟨none⟩, ⟨none⟩, ⟨none⟩⟩).body.details =
      some RATE_LIMIT_BODY :=
  c7_upstream_error_propagated
    ⟨none, some "gpt-4o", some "k", some [⟨some "user", some "hi"⟩]⟩
    ⟨429, RATE_LIMIT_BODY, ⟨none⟩, ⟨none⟩, ⟨none⟩⟩ Provider.openai
    (by decide) (by decide) (by decide) (by decide)

/-- Counterexample to C7 as stated: for the structured 429 body
`{"error":{"message":"rate limited"}}` the handler's details field is the
raw body, not the extracted nested message "rate limited" — no parsing is
ever attempted. -/
theorem c7_counterexample :
    (generate ⟨none, some "gpt-4o", some "k", some [⟨some "user", some "hi"⟩]⟩
        ⟨429, RATE_LIMIT_BODY, ⟨none⟩, ⟨none⟩, ⟨none⟩⟩).body.details =
      some RATE_LIMIT_BODY ∧
    RATE_LIMIT_BODY ≠ "rate limited" ∧
    (generate ⟨none, some "gpt-4o", some "k", some [⟨some "user", some "hi"⟩]⟩
        ⟨429, RATE_LIMIT_BODY, ⟨none⟩, ⟨none⟩, ⟨none⟩⟩).body.details ≠
      some "rate limited" := by
  refine ⟨rfl, by decide, by decide⟩

/-- C2: for a non-empty messages list, the Gemini translation yields a
contents array of the same length in the same order; every role is mapped
"assistant" to "model" and anything else to "user"; element 0's text is the
system prompt followed by the fixed delimiter and the first message's
content (so it begins with the system prompt); elements 1..N-1 carry each
message's content unchanged. -/
theorem c2_gemini_contents_shape (ctx : Option String) (m : ReqMsg)
    (ms : List ReqMsg) :
    (geminiContentsOf (systemPromptOf ctx) (m :: ms)).length =
      (m :: ms).length ∧
    (∃ suffix,
      (geminiContentsOf (systemPromptOf ctx) (m :: ms))[0]? =
        some ⟨mapGeminiRole m.role, [⟨some (systemPromptOf ctx ++ suffix)⟩]⟩) ∧
    (geminiContentsOf (systemPromptOf ctx) (m :: ms))[0]? =
      some ⟨mapGeminiRole m.role,
        [⟨some (systemPromptOf ctx ++ USER_PROMPT_DELIM ++
                jsToString m.content)⟩]⟩ ∧
    (∀ i, (geminiContentsOf (systemPromptOf ctx) (m :: ms))[i + 1]? =
      (ms[i]?).map fun x =>
        (⟨mapGeminiRole x.role, [⟨x.content⟩]⟩ : GeminiContentW)) ∧
    mapGeminiRole (some "assistant") = "model" ∧
    (∀ r, r ≠ some "assistant" → mapGeminiRole r = "user") := by
  refine ⟨?_, ?_, ?_, ?_, rfl, ?_⟩
  · simp [geminiContentsOf, geminiBase, injectSystemPrompt]
  · refine ⟨USER_PROMPT_DELIM ++ jsToString m.content, ?_⟩
    simp [geminiContentsOf, geminiBase, injectSystemPrompt,
          String.append_assoc]
  · simp [geminiContentsOf, geminiBase, injectSystemPrompt]
  · intro i
    simp [geminiContentsOf, geminiBase, injectSystemPrompt]
  · intro r hr
    cases r with
    | none => rfl
    | some s =>
      have hs : ¬s = "assistant" := fun hs => hr (by rw [hs])
      simp [mapGeminiRole, beq_iff_eq, hs]

/-- Witness for C2 at a concrete two-message history. -/
theorem c2_gemini_contents_shape_witness :
    (geminiContentsOf (systemPromptOf none)
      [⟨some "user", some "a"⟩, ⟨some "assistant", some "b"⟩]).length = 2 ∧
    mapGeminiRole (some "user") = "user" :=
  ⟨(c2_gemini_contents_shape none ⟨some "user", some "a"⟩
      [⟨some "assistant", some "b"⟩]).1,
   (c2_gemini_contents_shape none ⟨some "user", some "a"⟩
      [⟨some "assistant", some "b"⟩]).2.2.2.2.2 (some "user") (by decide)⟩

/-- The provider response used to exercise C8: status 200 with a Gemini body
whose first candidate's first part's text is "hi". -/
def upGeminiHello : ProviderResponse :=
  ⟨200, "", ⟨none⟩, ⟨some [⟨some ⟨some [⟨some "hi"⟩]⟩⟩]⟩, ⟨none⟩⟩

/-- C8 (code observation): a non-empty messages list whose first element
lacks `content` is NOT rejected with an internal error — the handler issues
the outbound Gemini call with the literal text "undefined" interpolated into
the first part, and with a well-formed upstream reply returns 200, never the
required 500. -/
theorem c8_undefined_content_not_rejected :
    (generate ⟨none, some "gemini-1.5-flash", some "key123",
        some [⟨some "user", none⟩]⟩ upGeminiHello).calls =
      [OutboundCall.gemini "gemini-1.5-flash" "key123"
        ⟨[⟨"user", [⟨some (systemPromptOf none ++ USER_PROMPT_DELIM ++
            "undefined")⟩]⟩]⟩] ∧
    (generate ⟨none, some "gemini-1.5-flash", some "key123",
        some [⟨some "user", none⟩]⟩ upGeminiHello).calls.length = 1 ∧
    (generate ⟨none, some "gemini-1.5-flash", some "key123",
        some [⟨some "user", none⟩]⟩ upGeminiHello).status = 200 ∧
    (generate ⟨none, some "gemini-1.5-flash", some "key123",
        some [⟨some "user", none⟩]⟩ upGeminiHello).status ≠ 500 :=
  ⟨rfl, rfl, rfl, by decide⟩

/-- The Gemini map step only allocates fresh cells: every address inside the
input heap still holds the same object afterwards. -/
theorem geminiMapH_heap_preserved (addrs : List Nat) :
    ∀ (h : Heap) (a : Nat), a < h.length →
      (geminiMapH h addrs).1[a]? = h[a]? := by
  induction addrs with
  | nil =>
    intro h a ha
    rfl
  | cons x xs ih =>
    intro h a ha
    have hlt : a < (h ++ [HObj.partObj (readMsgFields h x).2]).length := by
      simp only [List.length_append, List.length_cons, List.length_nil]
      omega
    calc (geminiMapH h (x :: xs)).1[a]?
        = (geminiMapH (h ++ [HObj.partObj (readMsgFields h x).2]) xs).1[a]? :=
          rfl
      _ = (h ++ [HObj.partObj (readMsgFields h x).2])[a]? := ih _ a hlt
      _ = h[a]? := List.getElem?_append_left ha

/-- The Claude map step only allocates fresh cells: every address inside the
input heap still holds the same object afterwards. -/
theorem claudeMapH_heap_preserved (addrs : List Nat) :
    ∀ (h : Heap) (a : Nat), a < h.length →
      (claudeMapH h addrs).1[a]? = h[a]? := by
  induction addrs with
  | nil =>
    intro h a ha
    rfl
  | cons x xs ih =>
    intro h a ha
    have hlt : a < (h ++
        [HObj.msgObj (some (mapClaudeRole (readMsgFields h x).1))
          (readMsgFields h x).2]).length := by
      simp only [List.length_append, List.length_cons, List.length_nil]
      omega
    calc (claudeMapH h (x :: xs)).1[a]?
        = (claudeMapH (h ++
            [HObj.msgObj (some (mapClaudeRole (readMsgFields h x).1))
              (readMsgFields h x).2]) xs).1[a]? := rfl
      _ = (h ++ [HObj.msgObj (some (mapClaudeRole (readMsgFields h x).1))
              (readMsgFields h x).2])[a]? := ih _ a hlt
      _ = h[a]? := List.getElem?_append_left ha

/-- The Gemini map step never shrinks the heap. -/
theorem geminiMapH_length_ge (addrs : List Nat) :
    ∀ h : Heap, h.length ≤ (geminiMapH h addrs).1.length := by
  induction addrs with
  | nil =>
    intro h
    exact Nat.le_refl _
  | cons x xs ih =>
    intro h
    show h.length ≤
      (geminiMapH (h ++ [HObj.partObj (readMsgFields h x).2]) xs).1.length
    have h2 := ih (h ++ [HObj.partObj (readMsgFields h x).2])
    simp only [List.length_append, List.length_cons, List.length_nil] at h2
    omega

/-- Every part address handed out by the Gemini map step is at or above the
input heap's length (i.e. freshly allocated). -/
theorem geminiMapH_addrs_ge (addrs : List Nat) :
    ∀ h : Heap, ∀ p ∈ (geminiMapH h addrs).2, h.length ≤ p.2 := by
  induction addrs with
  | nil =>
    intro h p hp
    simp [geminiMapH] at hp
  | cons x xs ih =>
    intro h p hp
    have hp2 : p = (mapGeminiRole (readMsgFields h x).1, h.length) ∨
        p ∈ (geminiMapH (h ++ [HObj.partObj (readMsgFields h x).2]) xs).2 := by
      simpa [geminiMapH] using hp
    rcases hp2 with rfl | hp2
    · exact Nat.le_refl _
    · have h3 := ih _ p hp2
      simp only [List.length_append, List.length_cons, List.length_nil] at h3
      omega

/-- Reading message fields is oblivious to a freshly appended part cell. -/
theorem readMsgFields_append_part (h : Heap) (t : Option String) (a : Nat) :
    readMsgFields (h ++ [HObj.partObj t]) a = readMsgFields h a := by
  unfold readMsgFields
  rcases Nat.lt_trichotomy a h.length with hlt | heq | hgt
  · rw [List.getElem?_append_left hlt]
  · subst heq
    rw [List.getElem?_append_right (Nat.le_refl _), Nat.sub_self,
        List.getElem?_eq_none (Nat.le_refl _)]
    rfl
  · have h1 : h[a]? = none := List.getElem?_eq_none (by omega)
    have h2 : (h ++ [HObj.partObj t])[a]? = none := by
      refine List.getElem?_eq_none ?_
      simp only [List.length_append, List.length_cons, List.length_nil]
      omega
    rw [h1, h2]

/-- The value observable through the Gemini map step's output equals the
role/content fields read from the message addresses in the input heap. -/
theorem geminiMapH_render (addrs : List Nat) :
    ∀ h : Heap,
      renderGemini (geminiMapH h addrs).1 (geminiMapH h addrs).2 =
        (addrs.map (readMsgFields h)).map
          (fun rc => (mapGeminiRole rc.1, rc.2)) := by
  induction addrs with
  | nil =>
    intro h
    rfl
  | cons x xs ih =>
    intro h
    have hhead : readPartText
        (geminiMapH (h ++ [HObj.partObj (readMsgFields h x).2]) xs).1
        h.length = (readMsgFields h x).2 := by
      have hlen : h.length <
          (h ++ [HObj.partObj (readMsgFields h x).2]).length := by
        simp only [List.length_append, List.length_cons, List.length_nil]
        omega
      unfold readPartText
      rw [geminiMapH_heap_preserved xs _ _ hlen,
          List.getElem?_append_right (Nat.le_refl _), Nat.sub_self]
      rfl
    have hxs : xs.map (readMsgFields (h ++ [HObj.partObj (readMsgFields h x).2])) =
        xs.map (readMsgFields h) :=
      List.map_congr_left (fun a _ => readMsgFields_append_part h _ a)
    have htail := ih (h ++ [HObj.partObj (readMsgFields h x).2])
    simp only [renderGemini] at htail ⊢
    simp only [geminiMapH, List.map_cons]
    rw [hhead, htail, hxs]

/-- The value observable through the full Gemini translation is a pure
function of the role/content fields read from the message addresses in the
input heap. -/
theorem geminiTranslateH_render (sp : String) (h : Heap) (addrs : List Nat) :
    renderGemini (geminiTranslateH sp h addrs).1
        (geminiTranslateH sp h addrs).2 =
      pureGeminiRender sp (addrs.map (readMsgFields h)) := by
  cases addrs with
  | nil => rfl
  | cons x xs =>
    have hmr := geminiMapH_render (x :: xs) h
    simp only [geminiMapH, renderGemini, List.map_cons] at hmr
    have hold : readPartText
        (geminiMapH (h ++ [HObj.partObj (readMsgFields h x).2]) xs).1
        h.length = (readMsgFields h x).2 := congrArg Prod.snd
      (List.head_eq_of_cons_eq hmr)
    have htail : (geminiMapH (h ++ [HObj.partObj (readMsgFields h x).2]) xs).2.map
          (fun rc => (rc.1, readPartText
            (geminiMapH (h ++ [HObj.partObj (readMsgFields h x).2]) xs).1 rc.2)) =
        (xs.map (readMsgFields h)).map
          (fun rc => (mapGeminiRole rc.1, rc.2)) :=
      List.tail_eq_of_cons_eq hmr
    have hlen : h.length <
        (geminiMapH (h ++ [HObj.partObj (readMsgFields h x).2]) xs).1.length := by
      have := geminiMapH_length_ge xs (h ++ [HObj.partObj (readMsgFields h x).2])
      simp only [List.length_append, List.length_cons, List.length_nil] at this
      omega
    have hset : ∀ a, h.length + 1 ≤ a →
        readPartText
          ((geminiMapH (h ++ [HObj.partObj (readMsgFields h x).2]) xs).1.set
            h.length (HObj.partObj (some (sp ++ USER_PROMPT_DELIM ++
              jsToString (readPartText
                (geminiMapH (h ++ [HObj.partObj (readMsgFields h x).2]) xs).1
                h.length))))) a =
        readPartText
          (geminiMapH (h ++ [HObj.partObj (readMsgFields h x).2]) xs).1 a := by
      intro a ha
      unfold readPartText
      rw [List.getElem?_set_ne (by omega)]
    simp only [geminiTranslateH, geminiMapH, geminiInjectH, renderGemini,
      pureGeminiRender, List.map_cons]
    rw [List.cons_eq_cons]
    constructor
    · rw [hold]
      unfold readPartText
      rw [List.getElem?_set_self hlen]
    · calc (geminiMapH (h ++ [HObj.partObj (readMsgFields h x).2]) xs).2.map
            (fun rc => (rc.1, readPartText
              ((geminiMapH (h ++ [HObj.partObj (readMsgFields h x).2]) xs).1.set
                h.length (HObj.partObj (some (sp ++ USER_PROMPT_DELIM ++
                  jsToString (readPartText
                    (geminiMapH (h ++ [HObj.partObj (readMsgFields h x).2]) xs).1
                    h.length))))) rc.2))
          = (geminiMapH (h ++ [HObj.partObj (readMsgFields h x).2]) xs).2.map
              (fun rc => (rc.1, readPartText
                (geminiMapH (h ++ [HObj.partObj (readMsgFields h x).2]) xs).1
                rc.2)) := by
            refine List.map_congr_left ?_
            intro p hp
            have hge := geminiMapH_addrs_ge xs
              (h ++ [HObj.partObj (readMsgFields h x).2]) p hp
            simp only [List.length_append, List.length_cons,
              List.length_nil] at hge
            rw [hset p.2 (by omega)]
        _ = (xs.map (readMsgFields h)).map
              (fun rc => (mapGeminiRole rc.1, rc.2)) := htail

/-- The full Gemini translation (map plus the single field write) preserves
every address of the input heap: the write targets the freshly allocated
first part cell, never a pre-existing object. -/
theorem geminiTranslateH_frame (sp : String) (h : Heap) (addrs : List Nat)
    (a : Nat) (ha : a < h.length) :
    (geminiTranslateH sp h addrs).1[a]? = h[a]? := by
  cases addrs with
  | nil => rfl
  | cons x xs =>
    simp only [geminiTranslateH, geminiMapH, geminiInjectH]
    rw [List.getElem?_set_ne (by omega)]
    rw [geminiMapH_heap_preserved xs _ a (by
      simp only [List.length_append, List.length_cons, List.length_nil]
      omega)]
    exact List.getElem?_append_left ha

/-- C9: the Gemini and Claude payload translations leave every
caller-supplied message object (indeed every pre-existing heap object)
unchanged — the Gemini system-prompt injection writes only the freshly
built part cell — and consequently translating the same messages a second
time observes the same values and yields an identical contents array. -/
theorem c9_translations_no_mutation (sp : String) (h : Heap)
    (addrs : List Nat) :
    (∀ a, a < h.length → (geminiTranslateH sp h addrs).1[a]? = h[a]?) ∧
    (∀ a, a < h.length → (claudeMapH h addrs).1[a]? = h[a]?) ∧
    ((∀ a ∈ addrs, a < h.length) →
      renderGemini
          (geminiTranslateH sp (geminiTranslateH sp h addrs).1 addrs).1
          (geminiTranslateH sp (geminiTranslateH sp h addrs).1 addrs).2 =
        renderGemini (geminiTranslateH sp h addrs).1
          (geminiTranslateH sp h addrs).2) := by
  refine ⟨fun a ha => geminiTranslateH_frame sp h addrs a ha,
          fun a ha => claudeMapH_heap_preserved addrs h a ha,
          fun hall => ?_⟩
  rw [geminiTranslateH_render, geminiTranslateH_render]
  have hfields : addrs.map (readMsgFields (geminiTranslateH sp h addrs).1) =
      addrs.map (readMsgFields h) := by
    refine List.map_congr_left ?_
    intro a ha
    unfold readMsgFields
    rw [geminiTranslateH_frame sp h addrs a (hall a ha)]
  rw [hfields]

/-- A one-message heap used to instantiate C9 at a concrete input. -/
def heapW : Heap := [HObj.msgObj (some "user") (some "hi")]

/-- Witness for C9 at a concrete one-message heap. -/
theorem c9_translations_no_mutation_witness :
    (geminiTranslateH "S" heapW [0]).1[0]? = heapW[0]? ∧
    (claudeMapH heapW [0]).1[0]? = heapW[0]? ∧
    renderGemini
        (geminiTranslateH "S" (geminiTranslateH "S" heapW [0]).1 [0]).1
        (geminiTranslateH "S" (geminiTranslateH "S" heapW [0]).1 [0]).2 =
      renderGemini (geminiTranslateH "S" heapW [0]).1
        (geminiTranslateH "S" heapW [0]).2 :=
  ⟨(c9_translations_no_mutation "S" heapW [0]).1 0 (by decide),
   (c9_translations_no_mutation "S" heapW [0]).2.1 0 (by decide),
   (c9_translations_no_mutation "S" heapW [0]).2.2 (by decide)⟩
